import Mathlib

/-
Verification of the Tool Execution Engine of the optimal-agent repository.

Shallow embedding of:
  - src/src/errors/ErrorTypes.ts        (error taxonomy and pre-classified error constructors)
  - src/src/errors/ErrorHandler.ts      (categorizeError, handleWithRetry, logError, formatUserError)
  - src/src/parsers/ContextInference.ts (ExecutionMonitor: executeWithMonitoring, cancelExecution,
                                         recordExecution; and the monitored ToolExecutor facade)
  - src/src/performance/ParallelExecutor.ts (ParallelExecutor.execute / executeTask)

Modelling conventions:
  - JavaScript promises and the single-threaded event loop are modelled by explicit state
    passing; the points where concurrent interleavings matter (the race between a tool
    operation, its timeout timer and cancellation, and the completion order of batch tasks)
    are modelled as explicit nondeterministic inputs (RaceOutcome, a small-step relation).
  - Machine integers are Nat/Int; wall-clock times and memory counters are outside the model
    (durations in records are set to 0, resource snapshots are omitted).
  - Thrown JS exceptions are modelled with Except; a JS error value is either a
    pre-classified OptimalAgentError (carrying its ErrorDetails) or a raw error
    carrying only a message.
  - The error-pattern frequency map of ErrorHandler (built with regex rewriting) is omitted:
    no claim concerns it.
-/

/-! ### Error taxonomy - src/src/errors/ErrorTypes.ts -/

inductive ErrorCategory where
  | validation
  | file_operation
  | model
  | tool_execution
  | network
  | parsing
  | context
  | system
  deriving DecidableEq, Repr

inductive ErrorSeverity where
  | low
  | medium
  | high
  | critical
  deriving DecidableEq, Repr

/-- Model of the ErrorDetails payload of OptimalAgentError (ErrorTypes.ts:23-33).
The originalError, context, timestamp and stack fields are omitted: they carry
wall-clock / host data no claim concerns. -/
structure ErrorDetails where
  category : ErrorCategory
  severity : ErrorSeverity
  message : String
  retryable : Bool
  suggestedAction : Option String
  deriving DecidableEq, Repr

/-- A JS error value as the engine sees it: either a pre-classified
OptimalAgentError or a raw error with only a message. -/
inductive JsError where
  | agent (details : ErrorDetails)
  | raw (message : String)
  deriving DecidableEq, Repr

def JsError.message : JsError → String
  | .agent d => d.message
  | .raw m => m

/-- ErrorTypes.ts:58-71 -/
def ValidationError (message : String) : ErrorDetails :=
  { category := .validation, severity := .medium, message := message,
    retryable := false, suggestedAction := some "Check input parameters and try again" }

/-- ErrorTypes.ts:73-87 -/
def FileOperationError (message : String) : ErrorDetails :=
  { category := .file_operation, severity := .medium, message := message,
    retryable := true, suggestedAction := some "Check file permissions and path, then retry" }

/-- ErrorTypes.ts:89-103 -/
def ModelError (message : String) : ErrorDetails :=
  { category := .model, severity := .high, message := message,
    retryable := true, suggestedAction := some "Check model connection and configuration" }

/-- ErrorTypes.ts:105-119 -/
def ToolExecutionError (message : String) : ErrorDetails :=
  { category := .tool_execution, severity := .medium, message := message,
    retryable := true, suggestedAction := some "Review tool parameters and retry" }

/-- ErrorTypes.ts:121-135 -/
def NetworkError (message : String) : ErrorDetails :=
  { category := .network, severity := .high, message := message,
    retryable := true, suggestedAction := some "Check network connection and retry" }

/-- ErrorTypes.ts:137-150 -/
def ParsingError (message : String) : ErrorDetails :=
  { category := .parsing, severity := .low, message := message,
    retryable := false, suggestedAction := some "Rephrase your request more clearly" }

/-- ErrorTypes.ts:152-166 -/
def ContextError (message : String) : ErrorDetails :=
  { category := .context, severity := .medium, message := message,
    retryable := true, suggestedAction := some "Try clearing context or starting a new session" }

/-- ErrorTypes.ts:168-182 -/
def SystemError (message : String) : ErrorDetails :=
  { category := .system, severity := .critical, message := message,
    retryable := false, suggestedAction := some "Check system logs and contact support if issue persists" }

/-! ### JS String.prototype.includes, on the character lists of Lean strings -/

/-- Whether the first list is a leading segment of the second. -/
def startsWithChars : List Char → List Char → Bool
  | [], _ => true
  | _ :: _, [] => false
  | a :: as, b :: bs => a == b && startsWithChars as bs

/-- Whether the key occurs contiguously somewhere in the list. -/
def hasSubChars (key : List Char) : List Char → Bool
  | [] => key.isEmpty
  | c :: rest => startsWithChars key (c :: rest) || hasSubChars key rest

/-- Model of JS message.includes(sub). -/
def containsStr (s sub : String) : Bool :=
  hasSubChars sub.data s.data

/-! ### Error classifier - src/src/errors/ErrorHandler.ts:115-154 -/

/-- ErrorHandler.categorizeError: a pre-classified error is returned unchanged;
otherwise the message is matched against the substring rules in source order
(Network, FileOperation, Model, ToolExecution, default System). -/
def ErrorHandler.categorizeError (error : JsError) : ErrorDetails :=
  match error with
  | .agent d => d
  | .raw message =>
    if containsStr message "ECONNREFUSED" || containsStr message "ETIMEDOUT" ||
       containsStr message "ENOTFOUND" || containsStr message "fetch failed" then
      NetworkError message
    else if containsStr message "ENOENT" || containsStr message "EACCES" ||
            containsStr message "EPERM" || containsStr message "no such file" then
      FileOperationError message
    else if containsStr message "model" || containsStr message "API" ||
            containsStr message "completion" then
      ModelError message
    else if containsStr message "command" || containsStr message "execution" ||
            containsStr message "spawn" then
      ToolExecutionError message
    else
      SystemError message

/-- The fixed default severity each category carries, as the claim states it
(and as ErrorTypes.ts hard-codes in each constructor). -/
def defaultSeverity : ErrorCategory → ErrorSeverity
  | .validation => .medium
  | .file_operation => .medium
  | .model => .high
  | .tool_execution => .medium
  | .network => .high
  | .parsing => .low
  | .context => .medium
  | .system => .critical

/-- The fixed retryability each category carries, as the claim states it. -/
def defaultRetryable : ErrorCategory → Bool
  | .validation => false
  | .file_operation => true
  | .model => true
  | .tool_execution => true
  | .network => true
  | .parsing => false
  | .context => true
  | .system => false

/-- Stated from the words of the claim: the first matching category in the fixed
order Network, then FileOperation, then Model, then ToolExecution, defaulting
to System. Used as the specification side of the refinement for claim C8. -/
def specFirstCategory (message : String) : ErrorCategory :=
  if containsStr message "ECONNREFUSED" || containsStr message "ETIMEDOUT" ||
     containsStr message "ENOTFOUND" || containsStr message "fetch failed" then
    .network
  else if containsStr message "ENOENT" || containsStr message "EACCES" ||
          containsStr message "EPERM" || containsStr message "no such file" then
    .file_operation
  else if containsStr message "model" || containsStr message "API" ||
          containsStr message "completion" then
    .model
  else if containsStr message "command" || containsStr message "execution" ||
          containsStr message "spawn" then
    .tool_execution
  else
    .system

/-! ### Error log - src/src/errors/ErrorHandler.ts:159-191, 305-310 -/

/-- Model of the in-memory ErrorLog entry (ErrorHandler.ts:29-38); timestamp,
stack and context are host data outside the model. -/
structure ErrorLog where
  category : ErrorCategory
  severity : ErrorSeverity
  message : String
  retryCount : Option Nat
  deriving DecidableEq, Repr

def mkErrorLog (error : JsError) (retryCount : Option Nat) : ErrorLog :=
  let categorized := ErrorHandler.categorizeError error
  { category := categorized.category, severity := categorized.severity,
    message := categorized.message, retryCount := retryCount }

/-- ErrorHandler.logError: push the categorized entry, then evict the oldest
entry once the in-memory log exceeds 100 entries (ErrorHandler.ts:177-183).
The file append and the pattern-frequency map are outside the model. -/
def ErrorHandler.logError (error : JsError) (retryCount : Option Nat)
    (logs : List ErrorLog) : List ErrorLog :=
  if 100 < (logs ++ [mkErrorLog error retryCount]).length then
    (logs ++ [mkErrorLog error retryCount]).drop 1
  else
    logs ++ [mkErrorLog error retryCount]

/-- The error log produced by a sequence of logError calls starting from the
empty in-memory log. -/
def logStream (errors : List JsError) : List ErrorLog :=
  errors.foldl (fun logs e => ErrorHandler.logError e none logs) []

/-! ### Retry coordinator - src/src/errors/ErrorHandler.ts:72-110 -/

structure RetryConfig where
  maxRetries : Nat
  initialDelayMs : Nat
  maxDelayMs : Nat
  exponentialBackoff : Bool
  deriving DecidableEq, Repr

/-- ErrorHandler.ts:45-50 -/
def defaultRetryConfig : RetryConfig :=
  { maxRetries := 3, initialDelayMs := 1000, maxDelayMs := 10000, exponentialBackoff := true }

/-- The retry config ToolExecutor.executeTool passes (maxRetries 2,
initialDelayMs 500, exponentialBackoff true) merged with the defaults. -/
def toolRetryConfig : RetryConfig :=
  { maxRetries := 2, initialDelayMs := 500, maxDelayMs := 10000, exponentialBackoff := true }

/-- The result of one handleWithRetry call: the value returned or the error
finally rethrown, how many attempts ran, and the delays waited between them. -/
structure RetryRun (α : Type) where
  result : Except JsError α
  attempts : Nat
  delays : List Nat
  deriving Repr

/-- The test handleWithRetry performs at ErrorHandler.ts:88: an error stops the
retry loop immediately iff it is a pre-classified OptimalAgentError whose
retryable flag is false. A raw (unclassified) error never matches. -/
def nonRetryableClassified : JsError → Bool
  | .agent d => !d.retryable
  | .raw _ => false

/-- The retry loop of ErrorHandler.handleWithRetry (ErrorHandler.ts:81-107).
The wrapped operation is state-passing (sigma models the mutable world the
closure touches); logErr models this.logError, called on the last failed
attempt. remaining counts the attempts still permitted after this one, so the
loop starts with remaining = maxRetries. -/
def ErrorHandler.retryGo {σ α : Type} (logErr : JsError → Option Nat → σ → σ)
    (op : Nat → σ → Except JsError α × σ) (expBackoff : Bool)
    (maxDelayMs attempt currentDelay remaining : Nat) (s : σ) : RetryRun α × σ :=
  match op attempt s with
  | (.ok v, s1) => ({ result := .ok v, attempts := attempt + 1, delays := [] }, s1)
  | (.error e, s1) =>
    if nonRetryableClassified e then
      ({ result := .error e, attempts := attempt + 1, delays := [] }, s1)
    else
      match remaining with
      | 0 =>
        ({ result := .error e, attempts := attempt + 1, delays := [] },
         logErr e (some attempt) s1)
      | r + 1 =>
        let nextDelay := if expBackoff then min (currentDelay * 2) maxDelayMs else currentDelay
        let rest := ErrorHandler.retryGo logErr op expBackoff maxDelayMs
          (attempt + 1) nextDelay r s1
        ({ result := rest.1.result, attempts := rest.1.attempts,
           delays := currentDelay :: rest.1.delays }, rest.2)

/-- ErrorHandler.handleWithRetry with an already-merged config. -/
def ErrorHandler.handleWithRetry {σ α : Type} (logErr : JsError → Option Nat → σ → σ)
    (op : Nat → σ → Except JsError α × σ) (cfg : RetryConfig) (s : σ) : RetryRun α × σ :=
  ErrorHandler.retryGo logErr op cfg.exponentialBackoff cfg.maxDelayMs 0 cfg.initialDelayMs
    cfg.maxRetries s

/-! ### Recovery suggestions and user-facing formatting - ErrorHandler.ts:225-272, 330-346 -/

/-- The category-specific suggestions pushed by the switch in
ErrorHandler.getRecoverySuggestions (ErrorHandler.ts:233-269); the switch has
no case for validation or system. -/
def categorySuggestions : ErrorCategory → List String
  | .file_operation =>
    ["Verify the file path exists",
     "Check file permissions (read/write access)",
     "Ensure sufficient disk space"]
  | .network =>
    ["Check your internet connection",
     "Verify the API endpoint is accessible",
     "Check for firewall or proxy issues"]
  | .model =>
    ["Ensure the model is loaded and running",
     "Check model configuration in .env file",
     "Verify API credentials are correct"]
  | .tool_execution =>
    ["Review the tool parameters",
     "Check if required dependencies are installed",
     "Verify the command syntax is correct"]
  | .parsing =>
    ["Rephrase your request more clearly",
     "Use explicit tool names when possible",
     "Break complex requests into simpler steps"]
  | .context =>
    ["Try clearing the conversation context",
     "Start a new session",
     "Reduce the context window size"]
  | .validation => []
  | .system => []

def ErrorHandler.getRecoverySuggestions (e : ErrorDetails) : List String :=
  (match e.suggestedAction with
   | some action => [action]
   | none => []) ++ categorySuggestions e.category

/-- The string value of each ErrorCategory enum member (ErrorTypes.ts:5-14). -/
def categoryToString : ErrorCategory → String
  | .validation => "validation"
  | .file_operation => "file_operation"
  | .model => "model"
  | .tool_execution => "tool_execution"
  | .network => "network"
  | .parsing => "parsing"
  | .context => "context"
  | .system => "system"

/-- The string value of each ErrorSeverity enum member (ErrorTypes.ts:16-21). -/
def severityToString : ErrorSeverity → String
  | .low => "low"
  | .medium => "medium"
  | .high => "high"
  | .critical => "critical"

/-- The numbered suggestion lines appended by the forEach at ErrorHandler.ts:340-342. -/
def numberedSuggestions (suggestions : List String) : String :=
  String.join (suggestions.enum.map (fun p => toString (p.1 + 1) ++ ". " ++ p.2 ++ "\n"))

/-- ErrorHandler.formatUserError (ErrorHandler.ts:330-346). The output is one
string built by concatenation; since string append is associative the grouping
chosen here (rightmost-nested) is immaterial. -/
def ErrorHandler.formatUserError (error : JsError) : String :=
  let c := ErrorHandler.categorizeError error
  let suggestions := ErrorHandler.getRecoverySuggestions c
  "❌ Error: " ++ (c.message ++
    ("\nCategory: " ++ (categoryToString c.category ++
      ("\nSeverity: " ++ (severityToString c.severity ++
        ("\n" ++ (if suggestions.isEmpty then "" else "\nSuggested actions:\n" ++ numberedSuggestions suggestions)))))))

/-! ### Execution monitor - src/src/parsers/ContextInference.ts:1650-1830 -/

/-- Model of ToolResult (src/src/types.ts shape used throughout):
success, output, optional errorMessage, executionTime. Wall-clock execution
times are outside the model and appear as 0. -/
structure ToolResult where
  success : Bool
  output : String
  errorMessage : Option String
  executionTime : Nat
  deriving DecidableEq, Repr

/-- Model of ExecutionMetrics (ContextInference.ts:1608-1621). startTime,
endTime, duration and resourceUsage are wall-clock / host data outside the
model; the optional cancelled/timedOut flags collapse to Bool (absent =
false). -/
structure ExecutionMetrics where
  toolName : String
  executionId : Nat
  success : Bool
  parameters : String
  result : Option ToolResult
  error : Option String
  cancelled : Bool
  timedOut : Bool
  deriving DecidableEq, Repr

/-- The mutable state of one ExecutionMonitor instance: the bounded execution
history, the active-execution table (executionId paired with whether its
AbortController has been aborted), a counter modelling fresh executionId
generation, and the history capacity (1000 at construction). -/
structure MonitorState where
  executionHistory : List ExecutionMetrics
  activeExecutions : List (Nat × Bool)
  nextId : Nat
  maxHistorySize : Nat
  deriving DecidableEq, Repr

def MonitorState.initial : MonitorState :=
  { executionHistory := [], activeExecutions := [], nextId := 0, maxHistorySize := 1000 }

/-- ExecutionMonitor.recordExecution (ContextInference.ts:1823-1830): push,
then evict the oldest record once the history exceeds maxHistorySize. -/
def ExecutionMonitor.recordExecution (hist : List ExecutionMetrics)
    (m : ExecutionMetrics) (maxSize : Nat) : List ExecutionMetrics :=
  if maxSize < (hist ++ [m]).length then (hist ++ [m]).drop 1 else hist ++ [m]

/-- The finally block of executeWithMonitoring (ContextInference.ts:1755-1759):
remove the executionId from the active table and append the finalized record. -/
def ExecutionMonitor.finalizeExecution (executionId : Nat) (m : ExecutionMetrics)
    (s : MonitorState) : MonitorState :=
  { s with
    activeExecutions := s.activeExecutions.filter (fun p => p.1 != executionId),
    executionHistory := ExecutionMonitor.recordExecution s.executionHistory m s.maxHistorySize }

/-- Which side of the race inside executeWithMonitoring settles first on a
given attempt: the tool operation itself (returning a result or throwing), the
per-attempt timeout timer, or an external cancellation signal. This is the
nondeterministic scheduling input of the model. -/
inductive RaceOutcome where
  | settled (r : Except JsError ToolResult)
  | timedOutFirst
  | cancelledFirst
  deriving Repr

/-- ExecutionMonitor.executeWithMonitoring (ContextInference.ts:1658-1760).
Registers a fresh executionId in the active table, races the tool operation
against timeout/cancellation, folds a lost race into a returned failed
ToolResult (never a thrown error), rethrows genuine tool errors, and in all
cases removes the active entry and appends exactly one record. -/
def ExecutionMonitor.executeWithMonitoring (toolName : String) (parameters : String)
    (timeout : Nat) (outcome : RaceOutcome) (s : MonitorState) :
    Except JsError ToolResult × MonitorState :=
  let executionId := s.nextId
  let s1 : MonitorState :=
    { s with nextId := s.nextId + 1,
             activeExecutions := s.activeExecutions ++ [(executionId, false)] }
  let base : ExecutionMetrics :=
    { toolName := toolName, executionId := executionId, success := false,
      parameters := parameters, result := none, error := none,
      cancelled := false, timedOut := false }
  match outcome with
  | .settled (.ok r) =>
    (.ok r,
     ExecutionMonitor.finalizeExecution executionId
       { base with success := r.success, result := some r } s1)
  | .settled (.error e) =>
    (.error e,
     ExecutionMonitor.finalizeExecution executionId
       { base with success := false, error := some e.message } s1)
  | .timedOutFirst =>
    let msg := "Tool execution timed out after " ++ toString timeout ++ "ms"
    (.ok { success := false, output := "", errorMessage := some msg, executionTime := 0 },
     ExecutionMonitor.finalizeExecution executionId
       { base with timedOut := true, error := some msg } s1)
  | .cancelledFirst =>
    let msg := "Tool execution was cancelled"
    (.ok { success := false, output := "", errorMessage := some msg, executionTime := 0 },
     ExecutionMonitor.finalizeExecution executionId
       { base with cancelled := true, error := some msg } s1)

/-- ExecutionMonitor.cancelExecution (ContextInference.ts:1792-1799): abort the
controller and return true iff the executionId has an entry in the active
table. The entry itself is not removed here; only the finally block of
executeWithMonitoring removes it. -/
def ExecutionMonitor.cancelExecution (executionId : Nat) (s : MonitorState) :
    Bool × MonitorState :=
  match s.activeExecutions.find? (fun p => p.1 == executionId) with
  | some _ =>
    (true,
     { s with activeExecutions :=
        s.activeExecutions.map (fun p => if p.1 == executionId then (p.1, true) else p) })
  | none => (false, s)

/-! ### Tool executor facade - src/src/parsers/ContextInference.ts:2040-2149 -/

/-- The engine state the monitored ToolExecutor touches: its ExecutionMonitor
and the in-memory error log of the ErrorHandler. -/
structure EngineState where
  monitor : MonitorState
  errorLogs : List ErrorLog
  deriving DecidableEq, Repr

/-- this.errorHandler.logError lifted to the engine state. -/
def engineLogError (e : JsError) (retryCount : Option Nat) (st : EngineState) : EngineState :=
  { st with errorLogs := ErrorHandler.logError e retryCount st.errorLogs }

/-- The closure executeTool hands to handleWithRetry (ContextInference.ts:2083):
one monitored attempt, with the race outcome of each attempt supplied by the
oracle. -/
def monitorOp (toolName parameters : String) (timeout : Nat)
    (outcomes : Nat → RaceOutcome) : Nat → EngineState → Except JsError ToolResult × EngineState :=
  fun attempt st =>
    let r := ExecutionMonitor.executeWithMonitoring toolName parameters timeout
      (outcomes attempt) st.monitor
    (r.1, { st with monitor := r.2 })

/-- The handleWithRetry call inside executeTool, with the config it passes
(ContextInference.ts:2082-2086). -/
def ToolExecutor.executeToolRetry (toolName parameters : String) (timeout : Nat)
    (outcomes : Nat → RaceOutcome) (st : EngineState) : RetryRun ToolResult × EngineState :=
  ErrorHandler.handleWithRetry engineLogError
    (monitorOp toolName parameters timeout outcomes) toolRetryConfig st

/-- The single-quote character U+0027, built from its code point; it wraps the
tool name in the message Tool <q>name<q> failed (ContextInference.ts:2092). -/
def sglQuote : String := String.singleton (Char.ofNat 39)

/-- The monitored ToolExecutor.executeTool (ContextInference.ts:2054-2106):
registry miss returns a failed result immediately (after logging); otherwise
the retry coordinator wraps the execution monitor; a final thrown failure is
wrapped in a ToolExecutionError, logged, and returned as a failed result
formatted by formatUserError. Every path returns - nothing is thrown. The
registry is modelled by its key set (Map.set is last-write-wins, so lookup
success is membership). -/
def ToolExecutor.executeTool (registry : List String) (toolName parameters : String)
    (timeout : Nat) (outcomes : Nat → RaceOutcome) (st : EngineState) :
    ToolResult × EngineState :=
  if registry.contains toolName then
    match ToolExecutor.executeToolRetry toolName parameters timeout outcomes st with
    | (⟨Except.ok r, _, _⟩, st2) => (r, st2)
    | (⟨Except.error e, _, _⟩, st2) =>
      ({ success := false, output := "",
         errorMessage := some (ErrorHandler.formatUserError (.agent (ToolExecutionError
           ("Tool " ++ sglQuote ++ toolName ++ sglQuote ++ " failed: " ++ e.message)))),
         executionTime := 0 },
       engineLogError
         (.agent (ToolExecutionError
           ("Tool " ++ sglQuote ++ toolName ++ sglQuote ++ " failed: " ++ e.message)))
         none st2)
  else
    let err := ToolExecutionError ("Unknown tool: " ++ toolName)
    ({ success := false, output := "",
       errorMessage := some ("Unknown tool: " ++ toolName), executionTime := 0 },
     engineLogError (.agent err) none st)

/-! ### Parallel batch scheduler - src/src/performance/ParallelExecutor.ts -/

/-- Model of ParallelTask (ParallelExecutor.ts:6-10): id, optional priority
(higher first; an absent priority reads as 0 in the comparator). The
execute closure itself is outside the state; whether a given run of it
succeeds or fails is a nondeterministic input of the step relation, which also
covers the per-task timeout (a timeout surfaces as a rejection). -/
structure ParallelTask where
  id : String
  priority : Option Int
  deriving DecidableEq, Repr

/-- Model for an entry of the results map (ParallelExecutor.ts:12-18): id and
success flag (the value/error payloads and the wall-clock duration carry no
information the claims need beyond success/failure). -/
structure TaskResult where
  id : String
  success : Bool
  deriving DecidableEq, Repr

/-- JS Map.set: replace the entry of an existing key in place, else append. -/
def setResult (key : String) (v : TaskResult) (l : List (String × TaskResult)) :
    List (String × TaskResult) :=
  if l.any (fun p => p.1 == key) then
    l.map (fun p => if p.1 == key then (key, v) else p)
  else
    l ++ [(key, v)]

/-- JS Map.get as used by execute: results.get(id), none models undefined. -/
def getResult (key : String) (l : List (String × TaskResult)) : Option TaskResult :=
  (l.find? (fun p => p.1 == key)).map (fun p => p.2)

/-- The constructor resolves maxConcurrency as zero-or-absent means 5 (ParallelExecutor.ts:36):
absent or 0 (falsy) both yield 5, so the effective bound is at least 1. -/
def resolveMaxConcurrency : Option Nat → Nat
  | none => 5
  | some m => if m = 0 then 5 else m

/-- Insert a task into an already priority-descending list, after every task
of strictly higher priority and before every task of lower-or-equal priority:
since the inserted task originally preceded the tasks of the list, this realizes
the stable descending order of JS Array.prototype.sort with the comparator
`(b.priority || 0) - (a.priority || 0)`. -/
def insertByPriority (t : ParallelTask) : List ParallelTask → List ParallelTask
  | [] => [t]
  | u :: us =>
    if t.priority.getD 0 < u.priority.getD 0 then u :: insertByPriority t us
    else t :: u :: us

/-- The sort of the working copy at ParallelExecutor.ts:48 - stable, by
priority descending, absent priority reading as 0. -/
def sortTasks : List ParallelTask → List ParallelTask
  | [] => []
  | t :: ts => insertByPriority t (sortTasks ts)

/-- The scheduler state during one execute call. Each of the initial
executeTask calls (ParallelExecutor.ts:52-55) starts a chain that processes
one task at a time and, in its finally block, dequeues the next task unless
the stop flag is set; `chains` holds the in-flight task of each chain (none once
the chain has ended). `running` of the source is the number of occupied
chains. The early-return branch of executeTask (ts:68-76, resolving a task as
Execution stopped) is unreachable: both call sites - the initial loop, which
runs synchronously right after reset() sets shouldStop to false, and the
finally block, which is guarded by the synchronous check at ts:106 - only ever
invoke executeTask with shouldStop false, so the model needs no transition
for it. -/
structure SchedState where
  chains : List (Option ParallelTask)
  queue : List ParallelTask
  results : List (String × TaskResult)
  shouldStop : Bool
  deriving DecidableEq, Repr

/-- ParallelExecutor.execute lines 45-55: reset, sort by priority descending,
start min(maxConcurrency, n) chains on the first tasks of the sorted queue. -/
def ParallelExecutor.initState (tasks : List ParallelTask) (k : Nat) : SchedState :=
  let sorted := sortTasks tasks
  { chains := (sorted.take k).map some,
    queue := sorted.drop k,
    results := [],
    shouldStop := false }

/-- One completion event of the chain at index i whose in-flight task is t,
with the operation of the task succeeding (ok = true) or rejecting - a thrown
error or the per-task timeout - (ok = false). This is the atomic block of
executeTask from the moment its await resolves to the end of its finally
(ParallelExecutor.ts:81-110): record the result, set the stop flag on failure
when stopOnError is set, then either continue the chain with the next queued
task (only when the stop flag is clear and the queue non-empty) or end the
chain. -/
def stepComplete (stopOnError : Bool) (s : SchedState) (i : Nat) (t : ParallelTask)
    (ok : Bool) : SchedState :=
  let results := setResult t.id { id := t.id, success := ok } s.results
  let stop := s.shouldStop || (!ok && stopOnError)
  match stop, s.queue with
  | false, next :: rest =>
    { chains := s.chains.set i (some next), queue := rest,
      results := results, shouldStop := false }
  | b, q =>
    { chains := s.chains.set i none, queue := q,
      results := results, shouldStop := b }

/-- The small-step relation of the scheduler: any chain whose in-flight operation
settles may be the next to complete, with either outcome. -/
inductive SchedStep (stopOnError : Bool) : SchedState → SchedState → Prop
  | complete (s : SchedState) (i : Nat) (t : ParallelTask) (ok : Bool)
      (hchain : s.chains.get? i = some (some t)) :
      SchedStep stopOnError s (stepComplete stopOnError s i t ok)

/-- All interleavings of one execute call. -/
def SchedReach (stopOnError : Bool) : SchedState → SchedState → Prop :=
  Relation.ReflTransGen (SchedStep stopOnError)

/-- The number of operations started but not yet completed. -/
def running (s : SchedState) : Nat :=
  s.chains.countP (fun c => c.isSome)

/-- Promise.all at ParallelExecutor.ts:58 has resolved: every chain has ended. -/
def isFinal (s : SchedState) : Bool :=
  s.chains.all (fun c => c.isNone)

/-- The return value of execute (ParallelExecutor.ts:61):
tasks.map(task => this.results.get(task.id)!) - the non-null assertion hides
that the map lookup can be undefined, which the model keeps as Option. -/
def executeResults (tasks : List ParallelTask) (s : SchedState) : List (Option TaskResult) :=
  tasks.map (fun t => getResult t.id s.results)

/-- A monitor state with exactly one active execution, id 0. -/
def monitorWithOneActive : MonitorState :=
  { executionHistory := [], activeExecutions := [(0, false)], nextId := 1, maxHistorySize := 1000 }

/-- The fixed portion of the formatUserError output when the formatted error is
a ToolExecutionError: everything after the wrapped message. -/
def toolExecFailTail : String :=
  "\nCategory: " ++ ("tool_execution" ++ ("\nSeverity: " ++ ("medium" ++ ("\n" ++
    ("\nSuggested actions:\n" ++ numberedSuggestions
      ["Review tool parameters and retry", "Review the tool parameters",
       "Check if required dependencies are installed", "Verify the command syntax is correct"])))))

/-- Two equal-priority demo tasks for the stopOnError runs. -/
def demoTaskA : ParallelTask := { id := "a", priority := none }

def demoTaskB : ParallelTask := { id := "b", priority := none }

def demoTasks : List ParallelTask := [demoTaskA, demoTaskB]

/-- The final state of running demoTasks with maxConcurrency 1 and stopOnError
true when task a fails: the single chain completes task a, the stop flag goes
up, and the chain ends without dequeuing task b. -/
def stopDemoFinal : SchedState :=
  stepComplete true (ParallelExecutor.initState demoTasks 1) 0 demoTaskA false

/-- A one-task demo batch and its (deterministic) final state. -/
def soloTask : ParallelTask := { id := "solo", priority := none }

def soloFinal : SchedState :=
  stepComplete false (ParallelExecutor.initState [soloTask] 5) 0 soloTask true

/-- A freshly constructed engine: new monitor, empty error log. -/
def freshEngine : EngineState := { monitor := MonitorState.initial, errorLogs := [] }

/-- The successful result of the echo example. -/
def echoResult : ToolResult :=
  { success := true, output := "hi", errorMessage := none, executionTime := 0 }

/-- The run invariant of one execute call: result-map entries are keyed by
their own id; every input task is either resolved, still queued, or in
flight; a non-stopped state with a non-empty queue has at least one chain
busy; and the stop flag can only rise when stopOnError is set. -/
structure SchedInv (tasks : List ParallelTask) (stopOnError : Bool)
    (s : SchedState) : Prop where
  resKeys : ∀ p ∈ s.results, p.2.id = p.1
  cover : ∀ t ∈ tasks, (getResult t.id s.results).isSome = true ∨ t ∈ s.queue ∨
    ∃ i, s.chains.get? i = some (some t)
  prog : s.shouldStop = false → s.queue ≠ [] → 0 < running s
  stopFlag : stopOnError = false → s.shouldStop = false

/-! ### Helper lemmas -/

theorem hasSubChars_append_left (a : List Char) {l key : List Char}
    (h : hasSubChars key l = true) : hasSubChars key (a ++ l) = true := by
  induction a with
  | nil => simpa using h
  | cons c a ih =>
    simp only [List.cons_append, hasSubChars, Bool.or_eq_true]
    exact Or.inr ih

theorem containsStr_append_left (a : String) {s sub : String}
    (h : containsStr s sub = true) : containsStr (a ++ s) sub = true := by
  unfold containsStr at *
  rw [String.data_append]
  exact hasSubChars_append_left a.data h

/-! ### Claim theorems -/

/-- C8: categorizeError is idempotent - an already-classified error is
returned unchanged - and for every other error it assigns the first matching
category by inspecting the message in the fixed order Network, then
FileOperation, then Model, then ToolExecution, defaulting to System, where
each category carries its fixed severity and retryability:
Validation(Medium,no), FileOperation(Medium,yes), Model(High,yes),
ToolExecution(Medium,yes), Network(High,yes), Parsing(Low,no),
Context(Medium,yes), System(Critical,no). -/
theorem categorizeError_idempotent_ordered_and_table :
    (∀ d : ErrorDetails, ErrorHandler.categorizeError (.agent d) = d) ∧
    (∀ msg : String,
      (ErrorHandler.categorizeError (.raw msg)).category = specFirstCategory msg ∧
      (ErrorHandler.categorizeError (.raw msg)).severity =
        defaultSeverity (ErrorHandler.categorizeError (.raw msg)).category ∧
      (ErrorHandler.categorizeError (.raw msg)).retryable =
        defaultRetryable (ErrorHandler.categorizeError (.raw msg)).category) ∧
    (∀ msg : String,
      (ValidationError msg).category = .validation ∧
        (ValidationError msg).severity = .medium ∧ (ValidationError msg).retryable = false ∧
      (FileOperationError msg).category = .file_operation ∧
        (FileOperationError msg).severity = .medium ∧ (FileOperationError msg).retryable = true ∧
      (ModelError msg).category = .model ∧
        (ModelError msg).severity = .high ∧ (ModelError msg).retryable = true ∧
      (ToolExecutionError msg).category = .tool_execution ∧
        (ToolExecutionError msg).severity = .medium ∧ (ToolExecutionError msg).retryable = true ∧
      (NetworkError msg).category = .network ∧
        (NetworkError msg).severity = .high ∧ (NetworkError msg).retryable = true ∧
      (ParsingError msg).category = .parsing ∧
        (ParsingError msg).severity = .low ∧ (ParsingError msg).retryable = false ∧
      (ContextError msg).category = .context ∧
        (ContextError msg).severity = .medium ∧ (ContextError msg).retryable = true ∧
      (SystemError msg).category = .system ∧
        (SystemError msg).severity = .critical ∧ (SystemError msg).retryable = false) := by
  refine ⟨fun d => rfl, fun msg => ?_, fun msg => ?_⟩
  · simp only [ErrorHandler.categorizeError, specFirstCategory]
    split_ifs <;>
      exact ⟨rfl, rfl, rfl⟩
  · refine ⟨rfl, rfl, rfl, rfl, rfl, rfl, rfl, rfl, rfl, rfl, rfl, rfl,
      rfl, rfl, rfl, rfl, rfl, rfl, rfl, rfl, rfl, rfl, rfl, rfl⟩

/-- C5 (amended): an operation whose first attempt throws a pre-classified
non-retryable error gets exactly one attempt - handleWithRetry rethrows that
error immediately, with no delay waited and no further attempt - and the
final outcome is that classified failure. (The amendment: only
pre-classified errors stop the loop; a raw error whose message would
classify as non-retryable is still retried, see the counterexample.) -/
theorem handleWithRetry_preclassified_nonretryable_one_attempt
    {σ α : Type} (logErr : JsError → Option Nat → σ → σ)
    (op : Nat → σ → Except JsError α × σ) (cfg : RetryConfig) (s : σ)
    (d : ErrorDetails) (hop : (op 0 s).1 = .error (.agent d))
    (hnr : d.retryable = false) :
    ErrorHandler.handleWithRetry logErr op cfg s =
      ({ result := .error (.agent d), attempts := 1, delays := [] }, (op 0 s).2) := by
  unfold ErrorHandler.handleWithRetry
  rw [ErrorHandler.retryGo]
  rw [show op 0 s = (Except.error (JsError.agent d), (op 0 s).2) from by rw [← hop]]
  simp [nonRetryableClassified, hnr]

/-- Witness for the amended theorem of C5 at a concrete operation. -/
theorem handleWithRetry_preclassified_nonretryable_one_attempt_witness :
    ErrorHandler.handleWithRetry (fun _ _ (s : Unit) => s)
      (fun _ (s : Unit) =>
        ((Except.error (JsError.agent (ValidationError "bad input")) : Except JsError Nat), s))
      defaultRetryConfig () =
      ({ result := .error (.agent (ValidationError "bad input")), attempts := 1, delays := [] },
       ()) :=
  handleWithRetry_preclassified_nonretryable_one_attempt _ _ _ _ _ rfl rfl

/-- C5 counterexample: the claim also covers errors whose message merely
classifies as non-retryable (for example System). handleWithRetry only stops
early for pre-classified errors (the instanceof test at ErrorHandler.ts:88),
so an operation that always throws the raw error "boom" - which
categorizeError maps to System, non-retryable - is retried anyway: with
maxRetries 2, three attempts occur and two backoff delays are waited,
refuting "exactly one attempt". -/
theorem handleWithRetry_raw_system_error_is_retried :
    (ErrorHandler.categorizeError (.raw "boom")).category = .system ∧
    (ErrorHandler.categorizeError (.raw "boom")).retryable = false ∧
    (ErrorHandler.handleWithRetry (fun _ _ (s : Unit) => s)
        (fun _ (s : Unit) => ((Except.error (JsError.raw "boom") : Except JsError Nat), s))
        toolRetryConfig ()).1 =
      { result := .error (.raw "boom"), attempts := 3, delays := [500, 1000] } := by
  refine ⟨rfl, rfl, rfl⟩

theorem logError_drop_eq (e : JsError) (rc : Option Nat) (A : List ErrorLog) :
    ErrorHandler.logError e rc (A.drop (A.length - 100)) =
      (A ++ [mkErrorLog e rc]).drop ((A ++ [mkErrorLog e rc]).length - 100) := by
  have hlen : (A.drop (A.length - 100)).length = A.length - (A.length - 100) :=
    List.length_drop _ _
  unfold ErrorHandler.logError
  rcases le_or_lt A.length 99 with h | h
  · rw [if_neg]
    · have h0 : A.length - 100 = 0 := by omega
      have h1 : (A ++ [mkErrorLog e rc]).length - 100 = 0 := by
        rw [List.length_append]; simp; omega
      rw [h0, h1, List.drop_zero, List.drop_zero]
    · rw [List.length_append, hlen]; simp; omega
  · rw [if_pos]
    · have h1 : 1 ≤ (A.drop (A.length - 100)).length := by rw [hlen]; omega
      rw [List.drop_append_of_le_length h1, List.drop_drop]
      have h2 : (A ++ [mkErrorLog e rc]).length - 100 = A.length - 100 + 1 := by
        rw [List.length_append]; simp; omega
      rw [h2, List.drop_append_of_le_length (by omega)]
    · rw [List.length_append, hlen]; simp; omega

theorem logStream_fold (es : List JsError) : ∀ A : List ErrorLog,
    es.foldl (fun logs e => ErrorHandler.logError e none logs) (A.drop (A.length - 100)) =
      (A ++ es.map (fun e => mkErrorLog e none)).drop
        ((A ++ es.map (fun e => mkErrorLog e none)).length - 100) := by
  induction es with
  | nil => intro A; simp
  | cons e es ih =>
    intro A
    rw [List.foldl_cons, logError_drop_eq e none A, ih (A ++ [mkErrorLog e none])]
    simp [List.append_assoc]

/-- C10: after any sequence of logError calls starting from the empty
in-memory log, the log holds exactly the most recent (at most 100) entries in
logging order - the suffix of the full entry stream past its length minus
100, so the oldest entries are the ones evicted - and in particular never
more than 100 entries. -/
theorem errorLog_bounded_most_recent (es : List JsError) :
    logStream es = (es.map (fun e => mkErrorLog e none)).drop (es.length - 100) ∧
    (logStream es).length ≤ 100 := by
  have h := logStream_fold es []
  simp only [List.drop_nil, List.length_nil, Nat.zero_sub, List.drop_zero,
    List.nil_append] at h
  unfold logStream
  rw [h]
  constructor
  · rw [List.length_map]
  · rw [List.length_drop, List.length_map]; omega

/-- C7 (amended): cancelExecution returns true exactly when the executionId is
in the Active Execution Table, it does not remove the entry - so a second
cancel while the execution is still active returns true again (aborting is
idempotent only in effect) - and it returns false once the cleanup at the end of the execution has removed the entry. -/
theorem cancelExecution_true_iff_active (executionId : Nat) (s : MonitorState) :
    ((ExecutionMonitor.cancelExecution executionId s).1 =
      (s.activeExecutions.find? (fun p => p.1 == executionId)).isSome) ∧
    ((ExecutionMonitor.cancelExecution executionId
        (ExecutionMonitor.cancelExecution executionId s).2).1 =
      (s.activeExecutions.find? (fun p => p.1 == executionId)).isSome) ∧
    (∀ m : ExecutionMetrics,
      (ExecutionMonitor.cancelExecution executionId
        (ExecutionMonitor.finalizeExecution executionId m s)).1 = false) := by
  refine ⟨?_, ?_, ?_⟩
  · unfold ExecutionMonitor.cancelExecution
    rcases hf : s.activeExecutions.find? (fun p => p.1 == executionId) with _ | p <;> simp [hf]
  · unfold ExecutionMonitor.cancelExecution
    rcases hf : s.activeExecutions.find? (fun p => p.1 == executionId) with _ | p
    · simp [hf]
    · simp only [hf]
      rw [List.find?_map]
      have hcomp :
          ((fun q : Nat × Bool => q.1 == executionId) ∘
            (fun q : Nat × Bool => if q.1 == executionId then (q.1, true) else q)) =
          (fun q : Nat × Bool => q.1 == executionId) := by
        funext q
        by_cases hq : q.1 = executionId <;> simp [hq]
      rw [hcomp, hf]
      simp
  · intro m
    unfold ExecutionMonitor.cancelExecution ExecutionMonitor.finalizeExecution
    have : (s.activeExecutions.filter (fun p => p.1 != executionId)).find?
        (fun p => p.1 == executionId) = none := by
      rw [List.find?_eq_none]
      intro p hp
      have := List.of_mem_filter hp
      simpa using this
    simp [this]

/-- C7 counterexample: for an active execution, a second cancelExecution call
on the same id returns true again, not false - the entry is only removed when
the execution itself completes, so the claimed returns-true-exactly-once behaviour
fails on a state with one still-active execution. -/
theorem cancelExecution_second_call_still_true :
    (ExecutionMonitor.cancelExecution 0 monitorWithOneActive).1 = true ∧
    (ExecutionMonitor.cancelExecution 0
      (ExecutionMonitor.cancelExecution 0 monitorWithOneActive).2).1 = true := by
  exact ⟨rfl, rfl⟩

theorem find?_filter_ne (l : List (Nat × Bool)) (executionId : Nat) :
    (l.filter (fun p => p.1 != executionId)).find? (fun p => p.1 == executionId) = none := by
  rw [List.find?_eq_none]
  intro p hp
  have := List.of_mem_filter hp
  simpa using this

theorem recordExecution_append {hist : List ExecutionMetrics} {maxSize : Nat}
    (m : ExecutionMetrics) (h : hist.length < maxSize) :
    ExecutionMonitor.recordExecution hist m maxSize = hist ++ [m] := by
  unfold ExecutionMonitor.recordExecution
  rw [if_neg]
  simp only [List.length_append, List.length_cons, List.length_nil]
  omega

theorem recordExecution_getLast (hist : List ExecutionMetrics) (m : ExecutionMetrics)
    {maxSize : Nat} (h : 0 < maxSize) :
    (ExecutionMonitor.recordExecution hist m maxSize).getLast? = some m := by
  unfold ExecutionMonitor.recordExecution
  split_ifs with hc
  · simp only [List.length_append, List.length_cons, List.length_nil] at hc
    have hh : 1 ≤ hist.length := by omega
    rw [List.drop_append_of_le_length hh, List.getLast?_concat]
  · rw [List.getLast?_concat]

theorem retryGo_first_ok {σ α : Type} (logErr : JsError → Option Nat → σ → σ)
    (op : Nat → σ → Except JsError α × σ) (eb : Bool) (maxD att cd rem : Nat) (s : σ)
    (v : α) (h : (op att s).1 = .ok v) :
    ErrorHandler.retryGo logErr op eb maxD att cd rem s =
      ({ result := .ok v, attempts := att + 1, delays := [] }, (op att s).2) := by
  rw [ErrorHandler.retryGo, show op att s = (Except.ok v, (op att s).2) from by rw [← h]]

theorem formatUserError_toolExec (m0 : String) :
    ErrorHandler.formatUserError (.agent (ToolExecutionError m0)) =
      "❌ Error: " ++ (m0 ++ toolExecFailTail) := rfl

/-- C6: when the per-attempt timeout fires before the operation of the tool
settles, executeWithMonitoring does not throw: it returns (rather than
throws) a failed ToolResult whose message reports the timeout, the recorded
metrics entry has timedOut set, and the Active Execution Table no longer
contains the executionId of the attempt afterwards; only an exception thrown by
the tool implementation itself is propagated (as a thrown error) to the
caller. -/
theorem monitor_timeout_folded_into_result (toolName parameters : String)
    (timeout : Nat) (s : MonitorState) (hcap : 0 < s.maxHistorySize) :
    ((ExecutionMonitor.executeWithMonitoring toolName parameters timeout .timedOutFirst s).1 =
      .ok { success := false, output := "",
            errorMessage := some ("Tool execution timed out after " ++ toString timeout ++ "ms"),
            executionTime := 0 }) ∧
    (((ExecutionMonitor.executeWithMonitoring toolName parameters timeout
          .timedOutFirst s).2.executionHistory.getLast?).map (fun m => m.timedOut) =
      some true) ∧
    ((ExecutionMonitor.executeWithMonitoring toolName parameters timeout
        .timedOutFirst s).2.activeExecutions.find? (fun p => p.1 == s.nextId) = none) ∧
    (∀ e : JsError,
      (ExecutionMonitor.executeWithMonitoring toolName parameters timeout
        (.settled (.error e)) s).1 = .error e) := by
  refine ⟨rfl, ?_, ?_, fun e => rfl⟩
  · show ((ExecutionMonitor.recordExecution s.executionHistory _ s.maxHistorySize).getLast?).map
      (fun m => m.timedOut) = some true
    rw [recordExecution_getLast _ _ hcap]
    rfl
  · exact find?_filter_ne _ _

/-- Witness for C6 at the freshly constructed monitor. -/
theorem monitor_timeout_folded_into_result_witness :
    ((ExecutionMonitor.executeWithMonitoring "echo" "" 5 .timedOutFirst MonitorState.initial).1 =
      .ok { success := false, output := "",
            errorMessage := some ("Tool execution timed out after " ++ toString 5 ++ "ms"),
            executionTime := 0 }) ∧
    (((ExecutionMonitor.executeWithMonitoring "echo" "" 5
          .timedOutFirst MonitorState.initial).2.executionHistory.getLast?).map
        (fun m => m.timedOut) = some true) ∧
    ((ExecutionMonitor.executeWithMonitoring "echo" "" 5
        .timedOutFirst MonitorState.initial).2.activeExecutions.find?
          (fun p => p.1 == MonitorState.initial.nextId) = none) ∧
    (∀ e : JsError,
      (ExecutionMonitor.executeWithMonitoring "echo" "" 5
        (.settled (.error e)) MonitorState.initial).1 = .error e) :=
  monitor_timeout_folded_into_result "echo" "" 5 MonitorState.initial (by decide)

theorem monitorOp_first_ok (toolName parameters : String) (timeout : Nat)
    (outcomes : Nat → RaceOutcome) (st : EngineState) (r : ToolResult)
    (hout : outcomes 0 = .settled (.ok r)) :
    (monitorOp toolName parameters timeout outcomes 0 st).1 = .ok r := by
  simp [monitorOp, hout, ExecutionMonitor.executeWithMonitoring]

theorem executeWithMonitoring_ok_history (toolName parameters : String) (timeout : Nat)
    (r : ToolResult) (s : MonitorState)
    (hcap : s.executionHistory.length < s.maxHistorySize) :
    (ExecutionMonitor.executeWithMonitoring toolName parameters timeout
        (.settled (.ok r)) s).2.executionHistory =
      s.executionHistory ++
        [{ toolName := toolName, executionId := s.nextId, success := r.success,
           parameters := parameters, result := some r, error := none,
           cancelled := false, timedOut := false }] := by
  unfold ExecutionMonitor.executeWithMonitoring ExecutionMonitor.finalizeExecution
  simp only []
  exact recordExecution_append _ hcap

/-- C1: for a registered tool whose execute settles first and succeeds on the
first attempt, executeTool returns that result and appends exactly one
ExecutionRecord to the execution history, marked succeeded (and naming the
tool, carrying the result). -/
theorem executeTool_first_success_appends_one_record
    (registry : List String) (toolName parameters : String) (timeout : Nat)
    (outcomes : Nat → RaceOutcome) (st : EngineState) (r : ToolResult)
    (hreg : registry.contains toolName = true)
    (hout : outcomes 0 = .settled (.ok r))
    (hsucc : r.success = true)
    (hcap : st.monitor.executionHistory.length < st.monitor.maxHistorySize) :
    (ToolExecutor.executeTool registry toolName parameters timeout outcomes st).1 = r ∧
    ∃ m : ExecutionMetrics,
      (ToolExecutor.executeTool registry toolName parameters timeout
          outcomes st).2.monitor.executionHistory =
        st.monitor.executionHistory ++ [m] ∧
      m.success = true ∧ m.toolName = toolName ∧ m.result = some r := by
  have hretry : ToolExecutor.executeToolRetry toolName parameters timeout outcomes st =
      ({ result := .ok r, attempts := 1, delays := [] },
       (monitorOp toolName parameters timeout outcomes 0 st).2) := by
    unfold ToolExecutor.executeToolRetry ErrorHandler.handleWithRetry
    exact retryGo_first_ok _ _ _ _ _ _ _ _ _
      (monitorOp_first_ok toolName parameters timeout outcomes st r hout)
  have hrun : ToolExecutor.executeTool registry toolName parameters timeout outcomes st =
      (r, (monitorOp toolName parameters timeout outcomes 0 st).2) := by
    unfold ToolExecutor.executeTool
    rw [hreg, hretry]
    rfl
  have hhist : (monitorOp toolName parameters timeout outcomes 0 st).2.monitor.executionHistory =
      st.monitor.executionHistory ++
        [{ toolName := toolName, executionId := st.monitor.nextId, success := r.success,
           parameters := parameters, result := some r, error := none,
           cancelled := false, timedOut := false }] := by
    show (ExecutionMonitor.executeWithMonitoring toolName parameters timeout
        (outcomes 0) st.monitor).2.executionHistory = _
    rw [hout]
    exact executeWithMonitoring_ok_history toolName parameters timeout r st.monitor hcap
  refine ⟨by rw [hrun], ⟨_, by rw [hrun]; exact hhist, by simpa using hsucc, rfl, rfl⟩⟩

/-- Witness for C1: the registered echo tool succeeding immediately. -/
theorem executeTool_first_success_appends_one_record_witness :
    (ToolExecutor.executeTool ["echo"] "echo" "hi" 120000
        (fun _ => .settled (.ok echoResult)) freshEngine).1 = echoResult ∧
    ∃ m : ExecutionMetrics,
      (ToolExecutor.executeTool ["echo"] "echo" "hi" 120000
        (fun _ => .settled (.ok echoResult)) freshEngine).2.monitor.executionHistory =
        MonitorState.initial.executionHistory ++ [m] ∧
      m.success = true ∧ m.toolName = "echo" ∧ m.result = some echoResult :=
  executeTool_first_success_appends_one_record ["echo"] "echo" "hi" 120000 _ _ _
    (by decide) rfl rfl (by decide)

/-- C2: executeTool never throws - every path returns a ToolResult (the model
function is total into ToolResult, mirroring that registry misses, retry
exhaustion and non-retryable errors are all caught): a registry miss returns
the failed Unknown-tool result, and whenever the wrapped retry coordinator
ends in a thrown error (final failure), the returned result is a failure
whose errorMessage is the formatting by the classifier, containing the category,
the severity, and the suggested actions. -/
theorem executeTool_never_throws_and_formats_final_failure
    (registry : List String) (toolName parameters : String) (timeout : Nat)
    (outcomes : Nat → RaceOutcome) (st : EngineState) :
    (registry.contains toolName = false →
      (ToolExecutor.executeTool registry toolName parameters timeout outcomes st).1 =
        { success := false, output := "",
          errorMessage := some ("Unknown tool: " ++ toolName), executionTime := 0 }) ∧
    (∀ e : JsError, registry.contains toolName = true →
      (ToolExecutor.executeToolRetry toolName parameters timeout outcomes st).1.result =
        .error e →
      ∃ msg : String,
        (ToolExecutor.executeTool registry toolName parameters timeout outcomes st).1 =
          { success := false, output := "", errorMessage := some msg,
            executionTime := 0 } ∧
        containsStr msg "Category: tool_execution" = true ∧
        containsStr msg "Severity: medium" = true ∧
        containsStr msg "Suggested actions:" = true ∧
        containsStr msg "1. Review tool parameters and retry" = true) := by
  constructor
  · intro hreg
    unfold ToolExecutor.executeTool
    rw [hreg]
    rfl
  · intro e hreg herr
    rcases hrun : ToolExecutor.executeToolRetry toolName parameters timeout outcomes st
      with ⟨run, st2⟩
    rcases run with ⟨res, att, del⟩
    rw [hrun] at herr
    have hres : res = Except.error e := herr
    refine ⟨ErrorHandler.formatUserError (.agent (ToolExecutionError
      ("Tool " ++ sglQuote ++ toolName ++ sglQuote ++ " failed: " ++ e.message))),
      ?_, ?_, ?_, ?_, ?_⟩
    · unfold ToolExecutor.executeTool
      rw [hreg, hrun, hres]
      rfl
    · rw [formatUserError_toolExec]
      exact containsStr_append_left _ (containsStr_append_left _ (by decide))
    · rw [formatUserError_toolExec]
      exact containsStr_append_left _ (containsStr_append_left _ (by decide))
    · rw [formatUserError_toolExec]
      exact containsStr_append_left _ (containsStr_append_left _ (by decide))
    · rw [formatUserError_toolExec]
      exact containsStr_append_left _ (containsStr_append_left _ (by decide))

/-- Witness for the final-failure formatting of C2: a registered tool that always
throws the raw error "boom" exhausts the retries; the outcome is a failed
result whose message carries category, severity and suggested actions. -/
theorem executeTool_formats_final_failure_witness :
    ∃ msg : String,
      (ToolExecutor.executeTool ["t"] "t" "" 120000
          (fun _ => .settled (.error (.raw "boom"))) freshEngine).1 =
        { success := false, output := "", errorMessage := some msg,
          executionTime := 0 } ∧
      containsStr msg "Category: tool_execution" = true ∧
      containsStr msg "Severity: medium" = true ∧
      containsStr msg "Suggested actions:" = true ∧
      containsStr msg "1. Review tool parameters and retry" = true :=
  (executeTool_never_throws_and_formats_final_failure ["t"] "t" "" 120000
      (fun _ => .settled (.error (.raw "boom"))) freshEngine).2
    (.raw "boom") (by decide) rfl

theorem comp_keyPred (x key : String) (v : TaskResult) :
    ((fun q : String × TaskResult => q.1 == x) ∘
      (fun q : String × TaskResult => if q.1 == key then (key, v) else q)) =
    (fun q : String × TaskResult => q.1 == x) := by
  funext q
  by_cases hq : q.1 = key <;> simp [hq]

theorem getResult_setResult_self (key : String) (v : TaskResult)
    (l : List (String × TaskResult)) :
    getResult key (setResult key v l) = some v := by
  unfold getResult setResult
  split_ifs with hany
  · rw [List.find?_map, comp_keyPred key key v]
    rcases hfind : List.find? (fun p => p.1 == key) l with _ | q
    · exfalso
      obtain ⟨x, hx, hpx⟩ := List.any_eq_true.mp hany
      exact absurd hpx (by simpa using (List.find?_eq_none.mp hfind x hx))
    · have hpq : (q.1 == key) = true := by
        have h0 := List.find?_some hfind
        simpa using h0
      simp [hfind, beq_iff_eq.mp hpq]
  · have hnone : List.find? (fun p => p.1 == key) l = none := by
      rw [List.find?_eq_none]
      intro x hx hpx
      exact hany (List.any_eq_true.mpr ⟨x, hx, hpx⟩)
    rw [List.find?_append, hnone]
    simp

theorem getResult_setResult_isSome (x key : String) (v : TaskResult)
    (l : List (String × TaskResult)) (h : (getResult x l).isSome = true) :
    (getResult x (setResult key v l)).isSome = true := by
  unfold getResult setResult
  unfold getResult at h
  rcases hfind : List.find? (fun p => p.1 == x) l with _ | q
  · rw [hfind] at h
    simp at h
  · split_ifs with hany
    · rw [List.find?_map, comp_keyPred x key v, hfind]
      simp
    · rw [List.find?_append, hfind]
      simp

theorem setResult_keys (key : String) (v : TaskResult) (l : List (String × TaskResult))
    (hv : v.id = key) (hl : ∀ p ∈ l, p.2.id = p.1) :
    ∀ p ∈ setResult key v l, p.2.id = p.1 := by
  unfold setResult
  split_ifs with hany
  · intro p hp
    obtain ⟨q, hq, hfq⟩ := List.mem_map.mp hp
    by_cases hqk : q.1 = key
    · rw [← hfq]
      simp [hqk, hv]
    · rw [← hfq]
      simp only [hqk, if_neg, beq_iff_eq]
      simp [hqk]
      exact hl q hq
  · intro p hp
    rcases List.mem_append.mp hp with hp | hp
    · exact hl p hp
    · have : p = (key, v) := by simpa using hp
      rw [this, hv]

theorem getResult_some_id (x : String) (l : List (String × TaskResult))
    (hl : ∀ p ∈ l, p.2.id = p.1) (r : TaskResult) (hr : getResult x l = some r) :
    r.id = x := by
  unfold getResult at hr
  rcases hfind : List.find? (fun p => p.1 == x) l with _ | q
  · rw [hfind] at hr
    cases hr
  · rw [hfind] at hr
    have hq2 : q.2 = r := by simpa using hr
    have hqx : (q.1 == x) = true := by
      have h0 := List.find?_some hfind
      simpa using h0
    have hmem : q ∈ l := List.mem_of_find?_eq_some hfind
    rw [← hq2, hl q hmem]
    exact beq_iff_eq.mp hqx

theorem stepComplete_chains_length (so : Bool) (s : SchedState) (i : Nat)
    (t : ParallelTask) (ok : Bool) :
    (stepComplete so s i t ok).chains.length = s.chains.length := by
  unfold stepComplete
  rcases hq : s.queue with _ | ⟨nx, rest⟩ <;>
    rcases hb : (s.shouldStop || (!ok && so)) with _ | _ <;>
    simp [List.length_set]

theorem reach_chains_length (so : Bool) {s s' : SchedState}
    (h : SchedReach so s s') : s'.chains.length = s.chains.length := by
  induction h with
  | refl => rfl
  | tail hpre hstep ih =>
    cases hstep with
    | complete i t ok hchain => rw [stepComplete_chains_length]; exact ih

/-- C9: during a batch run with effective concurrency bound k, no reachable
scheduler state ever has more than k operations started but not yet
completed, for any task list, priority assignment and stopOnError setting. -/
theorem parallel_maxConcurrency_bound (tasks : List ParallelTask) (kOpt : Option Nat)
    (stopOnError : Bool) (s : SchedState)
    (hreach : SchedReach stopOnError
      (ParallelExecutor.initState tasks (resolveMaxConcurrency kOpt)) s) :
    running s ≤ resolveMaxConcurrency kOpt := by
  have hcount : running s ≤ s.chains.length := List.countP_le_length _
  have hlen := reach_chains_length stopOnError hreach
  have hinit : (ParallelExecutor.initState tasks
      (resolveMaxConcurrency kOpt)).chains.length ≤ resolveMaxConcurrency kOpt := by
    simp [ParallelExecutor.initState]
  omega

/-- Witness for C9 at the initial state of a one-task batch. -/
theorem parallel_maxConcurrency_bound_witness :
    running (ParallelExecutor.initState [soloTask] (resolveMaxConcurrency (some 2))) ≤
      resolveMaxConcurrency (some 2) :=
  parallel_maxConcurrency_bound [soloTask] (some 2) false _ Relation.ReflTransGen.refl

theorem insertByPriority_perm (t : ParallelTask) (l : List ParallelTask) :
    List.Perm (insertByPriority t l) (t :: l) := by
  induction l with
  | nil => exact List.Perm.refl _
  | cons u us ih =>
    unfold insertByPriority
    split_ifs with h
    · exact (List.Perm.cons u ih).trans (List.Perm.swap t u us)
    · exact List.Perm.refl _

theorem sortTasks_perm (l : List ParallelTask) : List.Perm (sortTasks l) l := by
  induction l with
  | nil => exact List.Perm.refl _
  | cons t ts ih =>
    exact (insertByPriority_perm t (sortTasks ts)).trans (List.Perm.cons t ih)

theorem resolveMaxConcurrency_pos (kOpt : Option Nat) :
    1 ≤ resolveMaxConcurrency kOpt := by
  rcases kOpt with _ | m
  · decide
  · show 1 ≤ if m = 0 then 5 else m
    split_ifs <;> omega

theorem schedInv_init (tasks : List ParallelTask) (kOpt : Option Nat) (so : Bool) :
    SchedInv tasks so (ParallelExecutor.initState tasks (resolveMaxConcurrency kOpt)) := by
  have hk1 : 1 ≤ resolveMaxConcurrency kOpt := resolveMaxConcurrency_pos kOpt
  constructor
  · intro p hp
    simp [ParallelExecutor.initState] at hp
  · intro t ht
    have hmem : t ∈ sortTasks tasks := ((sortTasks_perm tasks).mem_iff).mpr ht
    have hsplit : t ∈ (sortTasks tasks).take (resolveMaxConcurrency kOpt) ++
        (sortTasks tasks).drop (resolveMaxConcurrency kOpt) := by
      rw [List.take_append_drop]
      exact hmem
    rcases List.mem_append.mp hsplit with htk | htd
    · right; right
      obtain ⟨i, hget⟩ := List.mem_iff_get?.mp htk
      refine ⟨i, ?_⟩
      show (((sortTasks tasks).take (resolveMaxConcurrency kOpt)).map some).get? i =
        some (some t)
      rw [List.get?_map, hget]
      rfl
    · right; left
      exact htd
  · intro hstop hq
    have hq2 : (sortTasks tasks).drop (resolveMaxConcurrency kOpt) ≠ [] := hq
    have hlt : resolveMaxConcurrency kOpt < (sortTasks tasks).length := by
      by_contra hge
      push_neg at hge
      exact hq2 (List.drop_eq_nil_of_le hge)
    show 0 < (((sortTasks tasks).take (resolveMaxConcurrency kOpt)).map some).countP
      (fun c => c.isSome)
    rw [List.countP_map]
    have hco : ((fun c : Option ParallelTask => c.isSome) ∘ some) = fun _ => true := by
      funext x
      rfl
    rw [hco]
    simp only [List.countP_true, List.length_take]
    omega
  · intro _
    rfl

theorem schedInv_step {tasks : List ParallelTask} {so : Bool} {s s' : SchedState}
    (hinv : SchedInv tasks so s) (hstep : SchedStep so s s') : SchedInv tasks so s' := by
  cases hstep with
  | complete i t ok hchain =>
    have hi : i < s.chains.length := (List.get?_eq_some.mp hchain).1
    have hkeys : ∀ p ∈ setResult t.id { id := t.id, success := ok } s.results,
        p.2.id = p.1 :=
      setResult_keys t.id _ s.results rfl hinv.resKeys
    unfold stepComplete
    rcases hb : (s.shouldStop || (!ok && so)) with _ | _
    · rcases hq : s.queue with _ | ⟨nx, rest⟩
      · -- stop flag down, queue empty: the chain ends
        simp only []
        constructor
        · exact hkeys
        · intro u hu
          rcases hinv.cover u hu with h | h | ⟨j, hj⟩
          · exact Or.inl (getResult_setResult_isSome u.id t.id _ s.results h)
          · rw [hq] at h
            cases h
          · by_cases hij : j = i
            · subst hij
              have hut : u = t := by
                rw [hchain] at hj
                injection hj with hj2
                injection hj2 with hj3
                exact hj3.symm
              subst hut
              left
              rw [getResult_setResult_self]
              rfl
            · right; right
              exact ⟨j, by rw [List.get?_set_ne _ _ (Ne.symm hij)]; exact hj⟩
        · intro _ habs
          exact absurd rfl habs
        · intro _
          rfl
      · -- stop flag down, queue non-empty: the chain continues with nx
        simp only []
        constructor
        · exact hkeys
        · intro u hu
          rcases hinv.cover u hu with h | h | ⟨j, hj⟩
          · exact Or.inl (getResult_setResult_isSome u.id t.id _ s.results h)
          · rw [hq] at h
            rcases List.mem_cons.mp h with rfl | h2
            · right; right
              exact ⟨i, by rw [List.get?_set_eq_of_lt _ hi]⟩
            · right; left
              exact h2
          · by_cases hij : j = i
            · subst hij
              have hut : u = t := by
                rw [hchain] at hj
                injection hj with hj2
                injection hj2 with hj3
                exact hj3.symm
              subst hut
              left
              rw [getResult_setResult_self]
              rfl
            · right; right
              exact ⟨j, by rw [List.get?_set_ne _ _ (Ne.symm hij)]; exact hj⟩
        · intro _ _
          show 0 < (s.chains.set i (some nx)).countP (fun c => c.isSome)
          rw [List.countP_pos_iff]
          refine ⟨some nx, List.get?_mem (List.get?_set_eq_of_lt _ hi), rfl⟩
        · intro _
          rfl
    · -- stop flag up: the chain ends, the queue is left untouched
      simp only []
      constructor
      · exact hkeys
      · intro u hu
        rcases hinv.cover u hu with h | h | ⟨j, hj⟩
        · exact Or.inl (getResult_setResult_isSome u.id t.id _ s.results h)
        · right; left
          exact h
        · by_cases hij : j = i
          · subst hij
            have hut : u = t := by
              rw [hchain] at hj
              injection hj with hj2
              injection hj2 with hj3
              exact hj3.symm
            subst hut
            left
            rw [getResult_setResult_self]
            rfl
          · right; right
            exact ⟨j, by rw [List.get?_set_ne _ _ (Ne.symm hij)]; exact hj⟩
      · intro habs _
        cases habs
      · intro hso
        exfalso
        rw [hso] at hb
        simp only [Bool.and_false, Bool.or_false] at hb
        exact absurd hb (by simp [hinv.stopFlag hso])

theorem schedInv_reach (tasks : List ParallelTask) (kOpt : Option Nat) (so : Bool)
    {s : SchedState}
    (h : SchedReach so (ParallelExecutor.initState tasks (resolveMaxConcurrency kOpt)) s) :
    SchedInv tasks so s := by
  induction h with
  | refl => exact schedInv_init tasks kOpt so
  | tail hpre hstep ih => exact schedInv_step ih hstep

/-- C4 (amended): the list execute returns always has the length of the input,
and at every index where a result is present its id equals the id of the input
task at
that index; when stopOnError is false, every index of a completed run holds a
result. (The amendment: under stopOnError, a task still queued when the stop
flag rises receives no result at all - its slot is the undefined hidden by
the non-null assertion at ParallelExecutor.ts:61 - rather than a result with
a matching id; see the counterexample.) -/
theorem parallel_results_aligned (tasks : List ParallelTask) (kOpt : Option Nat)
    (stopOnError : Bool) (s : SchedState)
    (hreach : SchedReach stopOnError
      (ParallelExecutor.initState tasks (resolveMaxConcurrency kOpt)) s) :
    (executeResults tasks s).length = tasks.length ∧
    (∀ i : Nat, ∀ r : TaskResult, ∀ t : ParallelTask,
      (executeResults tasks s).get? i = some (some r) → tasks.get? i = some t →
      r.id = t.id) ∧
    (stopOnError = false → isFinal s = true →
      ∀ t ∈ tasks, (getResult t.id s.results).isSome = true) := by
  have hinv := schedInv_reach tasks kOpt stopOnError hreach
  refine ⟨by simp [executeResults], ?_, ?_⟩
  · intro i r t hres htask
    unfold executeResults at hres
    rw [List.get?_map, htask] at hres
    have hget : getResult t.id s.results = some r := by simpa using hres
    exact getResult_some_id t.id s.results hinv.resKeys r hget
  · intro hso hfin t ht
    rcases hinv.cover t ht with h | h | ⟨j, hj⟩
    · exact h
    · exfalso
      have hq : s.queue ≠ [] := by
        intro he
        rw [he] at h
        cases h
      have hpos := hinv.prog (hinv.stopFlag hso) hq
      have hzero : running s = 0 := by
        unfold running
        rw [List.countP_eq_zero]
        intro c hc
        have hnone := List.all_eq_true.mp hfin c hc
        rcases c with _ | c
        · simp
        · cases hnone
      omega
    · have hmem := List.get?_mem hj
      have hnone := List.all_eq_true.mp hfin (some t) hmem
      cases hnone

/-- Witness for the amended theorem of C4: a one-task batch run to completion with
stopOnError false resolves its only task. -/
theorem parallel_results_aligned_witness :
    (getResult soloTask.id soloFinal.results).isSome = true :=
  ((parallel_results_aligned [soloTask] none false soloFinal
      (Relation.ReflTransGen.single
        (SchedStep.complete
          (ParallelExecutor.initState [soloTask] (resolveMaxConcurrency none))
          0 soloTask true rfl))).2.2)
    rfl rfl soloTask (List.mem_singleton.mpr rfl)

/-- C4 counterexample: with stopOnError true, maxConcurrency 1, and tasks
[a (fails), b], the run reaches the final state after one completion; the
returned list still has length 2, but position 1 holds no result at all
(the undefined hidden by the non-null assertion), so results[1].id cannot
equal tasks[1].id - refuting the claim for every option setting. -/
theorem parallel_results_missing_under_stopOnError :
    SchedReach true
      (ParallelExecutor.initState demoTasks (resolveMaxConcurrency (some 1)))
      stopDemoFinal ∧
    isFinal stopDemoFinal = true ∧
    demoTasks.get? 1 = some demoTaskB ∧
    (executeResults demoTasks stopDemoFinal).get? 1 = some none := by
  refine ⟨Relation.ReflTransGen.single
    (SchedStep.complete
      (ParallelExecutor.initState demoTasks (resolveMaxConcurrency (some 1)))
      0 demoTaskA false rfl), ?_, ?_, ?_⟩
  · rfl
  · rfl
  · rfl

/-- C3 (code bug): in the same run, task b - still queued when the stop flag
rose - is never resolved as Execution stopped: the early-return branch of
executeTask (ParallelExecutor.ts:68-76) is unreachable because both of its
call sites check shouldStop synchronously first, so the operation of b never
runs, no result is recorded for it, and execute returns undefined in the slot
of b
instead of a failed result. Tasks already in flight (a) do run to completion
and receive a result. -/
theorem parallel_stopOnError_queued_never_resolved :
    SchedReach true
      (ParallelExecutor.initState demoTasks (resolveMaxConcurrency (some 1)))
      stopDemoFinal ∧
    isFinal stopDemoFinal = true ∧
    demoTaskB ∈ stopDemoFinal.queue ∧
    getResult demoTaskB.id stopDemoFinal.results = none ∧
    executeResults demoTasks stopDemoFinal =
      [some { id := "a", success := false }, none] := by
  refine ⟨Relation.ReflTransGen.single
    (SchedStep.complete
      (ParallelExecutor.initState demoTasks (resolveMaxConcurrency (some 1)))
      0 demoTaskA false rfl), ?_, ?_, ?_, ?_⟩
  · rfl
  · show demoTaskB ∈ [demoTaskB]
    exact List.mem_singleton.mpr rfl
  · rfl
  · rfl
